import Mathlib

/-
Shallow embedding of src/experiment.py (class SmallWorld).

Modelling conventions:
- Python ints are embedded as Int, Python floats as Rat (the float values at the
  inputs studied here are exact or the claims are about the formula structure,
  which Rat captures faithfully).
- Python exceptions are embedded as Except values: raising is returning
  Except.error, normal return is Except.ok.
- numpy arrays of per-beta values are embedded as List Rat; the chained
  np.where selections act elementwise, so they become a per-element
  if-then-else chain mapped over the beta list.
- networkx calls are external library calls (networkx is not part of this
  repository); they are modelled from their documented behaviour:
  watts_strogatz_graph raises NetworkXError when k >= n and otherwise returns
  a graph on the nodes 0..n-1 with a randomized edge list, abstracted behind
  an rng oracle argument; average_shortest_path_length raises on the null
  graph and on a disconnected graph and otherwise returns the mean BFS
  distance over ordered node pairs.
- nx.circular_layout (line 35) and the matplotlib drawing and title-label
  calls are pure rendering collaborators excluded by the spec; visualize_graph
  is embedded as its error behaviour plus the list of artifact filenames
  written by plt.savefig.
-/

/-- The node identifiers 0..n-1 of an n-node networkx graph. -/
def intRange (n : Int) : List Int := (List.range n.toNat).map Int.ofNat

/-- A networkx graph value as the small-world script produces it: its node set
is always 0..n-1, recorded by its count n, together with its undirected edge
list. -/
structure NxGraph where
  n : Int
  edges : List (Int × Int)
  deriving DecidableEq, Repr

/-- Neighbors of u: far endpoints of the undirected edges incident to u. -/
def NxGraph.nbrs (g : NxGraph) (u : Int) : List Int :=
  (g.edges.filter (fun e => e.1 == u)).map (fun e => e.2) ++
    (g.edges.filter (fun e => e.2 == u)).map (fun e => e.1)

/-- One BFS expansion step: the nodes adjacent to the frontier that have not
been visited yet, without duplicates. -/
def bfsStep (g : NxGraph) (visited : List (Int × Nat)) (frontier : List Int) : List Int :=
  ((frontier.flatMap g.nbrs).dedup).filter
    (fun v => !((visited.map Prod.fst).contains v))

/-- Level-synchronous breadth-first search: visited pairs each reached node
with its distance, frontier is the set reached at distance d; the fuel bounds
the number of levels. -/
def bfsAux (g : NxGraph) : Nat → List (Int × Nat) → List Int → Nat → List (Int × Nat)
  | 0, visited, _, _ => visited
  | fuel + 1, visited, frontier, d =>
    let cand := bfsStep g visited frontier
    if cand.isEmpty then visited
    else bfsAux g fuel (visited ++ cand.map (fun v => (v, d + 1))) cand (d + 1)

/-- All nodes reachable from src, each with its BFS distance; n levels of
fuel always suffice. -/
def NxGraph.bfs (g : NxGraph) (src : Int) : List (Int × Nat) :=
  bfsAux g g.n.toNat [(src, 0)] [src] 0

/-- Sum of the BFS distances from src to every reachable node. -/
def NxGraph.distSum (g : NxGraph) (src : Int) : Nat :=
  ((g.bfs src).map Prod.snd).sum

/-- Connectivity as networkx is_connected decides it: every node is reachable
from the first node (node 0, since the nodes are 0..n-1 in insertion order).
networkx raises on the null graph; every caller below checks for 0 nodes
first, so the value at n = 0 is never relied on. -/
def NxGraph.isConnected (g : NxGraph) : Bool :=
  if g.n.toNat = 0 then false
  else (g.bfs 0).length == g.n.toNat

/-- Exceptions raised by the external networkx library: NetworkXError with
message "k>=n, choose smaller k or larger n" from watts_strogatz_graph,
NetworkXError with message "Graph is not connected." and
NetworkXPointlessConcept from average_shortest_path_length. -/
inductive NxError
  | kGeN
  | notConnected
  | pointlessConcept
  deriving DecidableEq, Repr

/-- Embedding of the external call nx.watts_strogatz_graph(n, k, b): raises
NetworkXError when k >= n, otherwise returns the graph on nodes 0..n-1 whose
randomized rewired edge list is abstracted into the rng oracle. No other
validation is performed: odd k and b outside [0,1] are accepted. -/
def watts_strogatz_graph (rng : Int → Int → Rat → List (Int × Int)) (n k : Int)
    (b : Rat) : Except NxError NxGraph :=
  if k ≥ n then Except.error NxError.kGeN
  else Except.ok ⟨n, rng n k b⟩

/-- Embedding of the external call nx.average_shortest_path_length(g) for an
undirected graph, from its documented behaviour: NetworkXPointlessConcept on
the null graph, 0 for a single node, NetworkXError if the graph is not
connected (the DisconnectedGraphError of spec section 7), otherwise the sum
of all BFS distances from every source divided by n*(n-1). -/
def average_shortest_path_length (g : NxGraph) : Except NxError Rat :=
  if g.n.toNat = 0 then Except.error NxError.pointlessConcept
  else if g.n.toNat = 1 then Except.ok 0
  else if g.isConnected then
    Except.ok (((intRange g.n).map (fun u => ((g.distSum u : Nat) : Rat))).sum /
      ((g.n.toNat : Rat) * ((g.n.toNat : Rat) - 1)))
  else Except.error NxError.notConnected

/-- The beta constructor argument: Python accepts a single float or a list
(docstring of __init__, lines 23-24). -/
inductive BetaArg
  | scalar (b : Rat)
  | list (bs : List Rat)
  deriving DecidableEq, Repr

/-- Lines 32-33: if not isinstance(beta, list): self.beta = [beta]. -/
def normalizeBeta : BetaArg → List Rat
  | BetaArg.scalar b => [b]
  | BetaArg.list bs => bs

/-- Line 34: [nx.watts_strogatz_graph(self.n, self.k, b) for b in self.beta].
The comprehension evaluates left to right and the first exception aborts it. -/
def buildGraphs (rng : Int → Int → Rat → List (Int × Int)) (n k : Int) :
    List Rat → Except NxError (List NxGraph)
  | [] => Except.ok []
  | b :: bs =>
    match watts_strogatz_graph rng n k b with
    | Except.error e => Except.error e
    | Except.ok g =>
      match buildGraphs rng n k bs with
      | Except.error e => Except.error e
      | Except.ok gs => Except.ok (g :: gs)

/-- The state of a SmallWorld instance after __init__ (the setattr loop of
lines 30-31 stores every constructor argument as an attribute; beta is stored
in its normalized list form). The pos attribute (circular layouts, line 35) is
pure geometry no claim inspects and is omitted. -/
structure SmallWorld where
  n : Int
  k : Int
  beta : List Rat
  visualize : Bool
  fig_path : String
  g : List NxGraph
  deriving DecidableEq, Repr

/-- Embedding of SmallWorld.__init__ (lines 14-35): stores the arguments,
wraps a scalar beta into a one-element list, then builds one graph per beta
entry. It performs no parameter validation of its own; the only possible
construction-time failure comes from the external graph builder. -/
def SmallWorld.init (n k : Int) (beta : BetaArg) (vis : Bool) (figPath : String)
    (rng : Int → Int → Rat → List (Int × Int)) : Except NxError SmallWorld :=
  let betas := normalizeBeta beta
  match buildGraphs rng n k betas with
  | Except.error e => Except.error e
  | Except.ok gs =>
    Except.ok { n := n, k := k, beta := betas, visualize := vis,
                fig_path := figPath, g := gs }

/-- Elementwise embedding of lines 75-79: the np.zeros initialization followed
by the three chained np.where selections, on a single beta entry. The Python
expression 3*(k-2)/4*(k-1) is left associated: ((3*(k-2))/4)*(k-1); the Lean
expression below parses the same way. -/
def clusteringEntry (n k : Int) (b : Rat) : Rat :=
  let result : Rat := 0
  let result := if b = 0 then 3*((k : Rat)-2)/4*((k : Rat)-1) else result
  let result := if b = 1 then (k : Rat)/(n : Rat) else result
  let result :=
    if b < 1 ∧ b > 0 then (3*((k : Rat)-2)/4*((k : Rat)-1))*((1-b)^3) else result
  result

/-- Embedding of SmallWorld.get_clustering_coefficient (lines 67-80): the
np.where chain acts elementwise over the beta array, reading only self.beta,
self.k and self.n, and result.tolist() returns the per-beta list. -/
def SmallWorld.get_clustering_coefficient (s : SmallWorld) : List Rat :=
  s.beta.map (clusteringEntry s.n s.k)

/-- The formula of spec section 4.2 for beta = 0: 3*(k-2) divided by the whole
product 4*(k-1). Stated from the spec text for comparison with the source. -/
def clustering_coefficient_spec (k : Int) : Rat :=
  (3*((k : Rat)-2))/(4*((k : Rat)-1))

/-- Embedding of the classification branch of print_info (lines 95-101); the
spec names this pure function Classifier.classify. -/
def classify (b : Rat) : String :=
  if b = 0 then "Regular network (Ring lattice)"
  else if b = 1 then "Random network"
  else "Small-world network"

/-- One average_shortest_path_length call per graph; the comprehension of
line 65 evaluates left to right and aborts at the first raised exception. -/
def avgPathList : List NxGraph → Except NxError (List Rat)
  | [] => Except.ok []
  | g :: gs =>
    match average_shortest_path_length g with
    | Except.error e => Except.error e
    | Except.ok a =>
      match avgPathList gs with
      | Except.error e => Except.error e
      | Except.ok rest => Except.ok (a :: rest)

/-- Embedding of SmallWorld.get_avg_path (lines 57-65). -/
def SmallWorld.get_avg_path (s : SmallWorld) : Except NxError (List Rat) :=
  avgPathList s.g

/-- Exceptions escaping visualize_graph: the ValueError of line 46 (named
GraphTooLargeError in the spec taxonomy) and any NxError propagating out of
the get_avg_path call of line 48. -/
inductive VisualizeError
  | graphTooLarge
  | nx (e : NxError)
  deriving DecidableEq, Repr

/-- Embedding of SmallWorld.visualize_graph (lines 37-55): when n > 5000 the
ValueError of line 46 is raised before anything is computed or saved; below
that bound get_avg_path runs first (line 48) and a NetworkXError it raises on
a disconnected graph propagates with nothing saved; get_clustering_coefficient
(line 49) is total and cannot fail; then one image per beta entry is saved as
"graph{idx}.png" (line 55). The title labels and the drawing fed from the two
metric lists (lines 51-54) are rendering the spec excludes; the embedding
returns the list of artifact filenames. self.fig_path is never read. -/
def SmallWorld.visualize_graph (s : SmallWorld) : Except VisualizeError (List String) :=
  if s.n > 5000 then Except.error VisualizeError.graphTooLarge
  else
    match s.get_avg_path with
    | Except.error e => Except.error (VisualizeError.nx e)
    | Except.ok _avg_paths =>
      let _clusters := s.get_clustering_coefficient
      Except.ok ((List.range s.beta.length).map
        (fun idx => "graph" ++ toString idx ++ ".png"))

/-- A fixed stand-in for the randomized rewired edge list. -/
def constRng : Int → Int → Rat → List (Int × Int) := fun _ _ _ => []

/-- A two-node connected graph, used to exercise success paths concretely. -/
def tinyGraph : NxGraph := ⟨2, [(0, 1)]⟩

/-- The unrewired part of the disconnected 5000-node outcome below: the path
edges (3, 4), (4, 5), ..., (4998, 4999). -/
def ringTail : List (Int × Int) :=
  (List.range 4996).map (fun i : Nat => ((i : Int) + 3, (i : Int) + 4))

/-- A possible outcome of watts_strogatz_graph(5000, 2, 1/2): starting from
the ring-lattice edges (i, i+1 mod 5000), the rewiring pass moved edge (2, 3)
to (2, 0) and edge (4999, 0) to (4999, 3) (both targets non-adjacent to their
source at that moment) and kept every other edge. The result keeps all
5000 = n*k/2 edges and is simple, but splits into the triangle {0, 1, 2} and
a cycle on {3, ..., 4999}: it is disconnected. -/
def discEdges : List (Int × Int) :=
  [(0, 1), (1, 2), (2, 0), (4999, 3)] ++ ringTail

/-- An rng oracle realizing the disconnected rewiring outcome above. -/
def discRng : Int → Int → Rat → List (Int × Int) := fun _ _ _ => discEdges

/-- The disconnected 5000-node graph carrying discEdges. -/
def discGraph : NxGraph := ⟨5000, discEdges⟩

/-- The SmallWorld state produced by SmallWorld(5000, 2, 0.5) when the random
rewiring yields discEdges. -/
def disconnected5000 : SmallWorld :=
  ⟨5000, 2, [1/2], true, "networkx.png", [discGraph]⟩

/-- A possible outcome of watts_strogatz_graph(20, 2, 1/2): from the ring
(i, i+1 mod 20), the rewiring pass moved edge (9, 10) to (9, 0) and edge
(19, 0) to (19, 10) and kept the rest, leaving two disjoint 10-cycles on
{0..9} and {10..19}: 20 = n*k/2 edges, simple, disconnected. -/
def twoCycles : List (Int × Int) :=
  ((List.range 9).map (fun i : Nat => ((i : Int), (i : Int) + 1))) ++ [(9, 0)] ++
    ((List.range 9).map (fun i : Nat => ((i : Int) + 10, (i : Int) + 11))) ++ [(19, 10)]

/-- The 20-node disconnected graph built from twoCycles. -/
def discSmall : NxGraph := ⟨20, twoCycles⟩

theorem buildGraphs_ok_of_lt (rng : Int → Int → Rat → List (Int × Int))
    (n k : Int) (h : k < n) (bs : List Rat) :
    buildGraphs rng n k bs =
      Except.ok (bs.map (fun b => ⟨n, rng n k b⟩)) := by
  induction bs with
  | nil => rfl
  | cons b bs ih =>
    simp [buildGraphs, watts_strogatz_graph, not_le.mpr h, ih]

theorem bfsAux_succ (g : NxGraph) (fuel : Nat) (visited : List (Int × Nat))
    (frontier : List Int) (d : Nat) :
    bfsAux g (fuel + 1) visited frontier d =
      (if (bfsStep g visited frontier).isEmpty then visited
      else bfsAux g fuel (visited ++ (bfsStep g visited frontier).map (fun v => (v, d + 1)))
        (bfsStep g visited frontier) (d + 1)) :=
  rfl

theorem ringTail_no_small_fst (u : Int) (hu : u < 3) :
    ringTail.filter (fun e => e.1 == u) = [] := by
  apply List.filter_eq_nil_iff.mpr
  intro e he
  have he' : e ∈ (List.range 4996).map (fun i : Nat => ((i : Int) + 3, (i : Int) + 4)) := he
  obtain ⟨i, hi, hfe⟩ := List.mem_map.mp he'
  subst hfe
  show ¬((i : Int) + 3 == u) = true
  simp only [beq_iff_eq]
  intro hc
  omega

theorem ringTail_no_small_snd (u : Int) (hu : u < 3) :
    ringTail.filter (fun e => e.2 == u) = [] := by
  apply List.filter_eq_nil_iff.mpr
  intro e he
  have he' : e ∈ (List.range 4996).map (fun i : Nat => ((i : Int) + 3, (i : Int) + 4)) := he
  obtain ⟨i, hi, hfe⟩ := List.mem_map.mp he'
  subst hfe
  show ¬((i : Int) + 4 == u) = true
  simp only [beq_iff_eq]
  intro hc
  omega

theorem discGraph_nbrs_small (u : Int) (hu : u < 3) :
    discGraph.nbrs u =
      (([(0, 1), (1, 2), (2, 0), (4999, 3)] : List (Int × Int)).filter
        (fun e => e.1 == u)).map (fun e => e.2) ++
      (([(0, 1), (1, 2), (2, 0), (4999, 3)] : List (Int × Int)).filter
        (fun e => e.2 == u)).map (fun e => e.1) := by
  show (discEdges.filter (fun e => e.1 == u)).map (fun e => e.2) ++
      (discEdges.filter (fun e => e.2 == u)).map (fun e => e.1) = _
  rewrite [discEdges, List.filter_append, List.filter_append,
    ringTail_no_small_fst u hu, ringTail_no_small_snd u hu,
    List.append_nil, List.append_nil]
  rfl

theorem discGraph_nbrs0 : discGraph.nbrs 0 = [1, 2] := by
  rewrite [discGraph_nbrs_small 0 (by norm_num)]; rfl

theorem discGraph_nbrs1 : discGraph.nbrs 1 = [2, 0] := by
  rewrite [discGraph_nbrs_small 1 (by norm_num)]; rfl

theorem discGraph_nbrs2 : discGraph.nbrs 2 = [0, 1] := by
  rewrite [discGraph_nbrs_small 2 (by norm_num)]; rfl

theorem discGraph_step1 : bfsStep discGraph [(0, 0)] [0] = [1, 2] := by
  rewrite [bfsStep, List.flatMap_cons, List.flatMap_nil, List.append_nil, discGraph_nbrs0]
  rfl

theorem discGraph_step2 :
    bfsStep discGraph ([(0, 0)] ++ ([1, 2] : List Int).map (fun v => (v, 0 + 1))) [1, 2] = [] := by
  rewrite [bfsStep, List.flatMap_cons, List.flatMap_cons, List.flatMap_nil,
    List.append_nil, discGraph_nbrs1, discGraph_nbrs2]
  rfl

theorem discGraph_bfsAux (fuel : Nat) :
    bfsAux discGraph (fuel + 1 + 1) [(0, 0)] [0] 0 = [(0, 0), (1, 1), (2, 1)] := by
  rewrite [bfsAux_succ, discGraph_step1]
  rewrite [show ([1, 2] : List Int).isEmpty = false from rfl]
  rewrite [if_neg (by decide : ¬(false = true))]
  rewrite [bfsAux_succ, discGraph_step2]
  rewrite [show ([] : List Int).isEmpty = true from rfl]
  rewrite [if_pos (rfl : true = true)]
  rfl

theorem discGraph_bfs0 : discGraph.bfs 0 = [(0, 0), (1, 1), (2, 1)] := by
  show bfsAux discGraph discGraph.n.toNat [(0, 0)] [0] 0 = _
  rewrite [show discGraph.n.toNat = 4998 + 1 + 1 from by decide]
  exact discGraph_bfsAux 4998

theorem discGraph_not_connected : discGraph.isConnected = false := by
  show (if discGraph.n.toNat = 0 then false
    else (discGraph.bfs 0).length == discGraph.n.toNat) = false
  rewrite [discGraph_bfs0]
  rfl

theorem discGraph_avg_error :
    average_shortest_path_length discGraph = Except.error NxError.notConnected := by
  simp only [average_shortest_path_length, discGraph_not_connected]
  rfl

/-- C5: for n > k >= 1, a beta entry equal to 1 yields exactly k/n (line 78;
the third np.where does not overwrite it since 1 < 1 is false). -/
theorem clusteringEntry_beta_one (n k : Int) (h1 : n > k) (h2 : k ≥ 1) :
    clusteringEntry n k 1 = (k : Rat)/(n : Rat) := by
  simp [clusteringEntry]

/-- Witness for clusteringEntry_beta_one at n = 20, k = 4. -/
theorem clusteringEntry_beta_one_witness :
    (20 : Int) > 4 ∧ (4 : Int) ≥ 1 ∧ clusteringEntry 20 4 1 = (4 : Rat)/(20 : Rat) :=
  ⟨by norm_num, by norm_num, clusteringEntry_beta_one 20 4 (by norm_num) (by norm_num)⟩

/-- C9: a beta entry strictly below 0 or strictly above 1 falls through all
three np.where selections and keeps its np.zeros initialization, so the
function raises nothing and returns 0.0 at that position. -/
theorem clusteringEntry_out_of_range (n k : Int) (b : Rat) (h : b < 0 ∨ b > 1) :
    clusteringEntry n k b = 0 := by
  rcases h with h | h
  · have hb0 : b ≠ 0 := ne_of_lt h
    have hb1 : b ≠ 1 := by intro hc; rw [hc] at h; norm_num at h
    have hbr : ¬(b < 1 ∧ b > 0) := by
      rintro ⟨_, hgt⟩; exact absurd h (not_lt.mpr (le_of_lt hgt))
    simp [clusteringEntry, hb0, hb1, hbr]
  · have hb0 : b ≠ 0 := by intro hc; rw [hc] at h; norm_num at h
    have hb1 : b ≠ 1 := ne_of_gt h
    have hbr : ¬(b < 1 ∧ b > 0) := by
      rintro ⟨hlt, _⟩; exact absurd h (not_lt.mpr (le_of_lt hlt))
    simp [clusteringEntry, hb0, hb1, hbr]

/-- Witness for clusteringEntry_out_of_range at n = 20, k = 4, b = 2. -/
theorem clusteringEntry_out_of_range_witness :
    ((2 : Rat) < 0 ∨ (2 : Rat) > 1) ∧ clusteringEntry 20 4 2 = 0 :=
  ⟨Or.inr (by norm_num), clusteringEntry_out_of_range 20 4 2 (Or.inr (by norm_num))⟩

/-- C1: the source divides only by 4, not by the whole product 4*(k-1).
At n = 20, k = 4, beta = 0 the code yields ((3*(4-2))/4)*(4-1) = 9/2, while
the formula of the spec gives 3*(4-2)/(4*(4-1)) = 1/2, so the claimed value
is not returned. -/
theorem clusteringEntry_beta_zero_grouping_bug :
    clusteringEntry 20 4 0 = 9/2 ∧
    clustering_coefficient_spec 4 = 1/2 ∧
    clusteringEntry 20 4 0 ≠ clustering_coefficient_spec 4 := by
  refine ⟨?_, ?_, ?_⟩ <;> norm_num [clusteringEntry, clustering_coefficient_spec]

/-- C2: the same grouping slip in the 0 < beta < 1 branch (line 79). At
n = 20, k = 4, beta = 1/2 the code yields (9/2)*(1/2)^3 = 9/16, while the
spec formula [3(k-2)/(4(k-1))]*(1-beta)^3 gives (1/2)*(1/8) = 1/16. -/
theorem clusteringEntry_mid_grouping_bug :
    clusteringEntry 20 4 (1/2) = 9/16 ∧
    clustering_coefficient_spec 4 * ((1 - (1/2 : Rat))^3) = 1/16 ∧
    clusteringEntry 20 4 (1/2) ≠ clustering_coefficient_spec 4 * ((1 - (1/2 : Rat))^3) := by
  refine ⟨?_, ?_, ?_⟩ <;> norm_num [clusteringEntry, clustering_coefficient_spec]

/-- C3 counterexample: constructing a SmallWorld with odd k = 3 (and n = 10,
beta = 0) raises nothing at all: __init__ contains no validation code, no
InvalidParameterError exists anywhere in the source, and construction
succeeds. -/
theorem init_odd_k_no_error :
    (SmallWorld.init 10 3 (BetaArg.scalar 0) true "networkx.png" constRng).isOk = true := by
  rfl

/-- C3 amended: the constructor itself validates nothing; with at least one
beta entry, construction fails if and only if k >= n, and that failure is a
NetworkXError raised from inside the external graph-building call of line 34,
not before any graph is built. Odd k, non-positive n with k < n, and beta
entries outside [0,1] are accepted without error. -/
theorem init_error_iff (n k : Int) (b : Rat) (bs : List Rat) (vis : Bool)
    (fp : String) (rng : Int → Int → Rat → List (Int × Int)) :
    (SmallWorld.init n k (BetaArg.list (b :: bs)) vis fp rng).isOk = true ↔ k < n := by
  constructor
  · intro h
    by_contra hk
    have hk' : k ≥ n := not_lt.mp hk
    simp [SmallWorld.init, normalizeBeta, buildGraphs, watts_strogatz_graph, hk',
      Except.isOk, Except.toBool] at h
  · intro h
    simp [SmallWorld.init, normalizeBeta, buildGraphs_ok_of_lt _ _ _ h,
      Except.isOk, Except.toBool]

/-- C4 counterexample: at n = 5000 visualize_graph is not guaranteed to
succeed. The state disconnected5000 is reachable: SmallWorld(5000, 2, 0.5)
constructs it when the random rewiring yields the realizable disconnected
outcome discEdges; visualize_graph then passes the size check but the
average-path computation of line 48 raises NetworkXError ("Graph is not
connected.") and no image artifact is saved. -/
theorem visualize_n5000_disconnected_fails :
    SmallWorld.init 5000 2 (BetaArg.scalar (1/2)) true "networkx.png" discRng =
      Except.ok disconnected5000 ∧
    disconnected5000.visualize_graph =
      Except.error (VisualizeError.nx NxError.notConnected) := by
  constructor
  · rfl
  · have havg : disconnected5000.get_avg_path = Except.error NxError.notConnected := by
      show avgPathList [discGraph] = _
      simp only [avgPathList, discGraph_avg_error]
    simp only [SmallWorld.visualize_graph, havg]
    rfl

/-- C4 amended: visualize_graph with n = 5001 raises the too-large error
(line 46, spec name GraphTooLargeError) before any artifact is produced;
n = 5000 passes the n > 5000 check (the boundary n <= 5000 is accepted,
n > 5000 rejected) and succeeds whenever the per-graph average shortest-path
computations of line 48 succeed, i.e. whenever every graph is connected; a
disconnected graph instead makes that call raise before anything is saved. -/
theorem visualize_boundary (s : SmallWorld) :
    (s.n = 5001 → s.visualize_graph = Except.error VisualizeError.graphTooLarge) ∧
    (s.n = 5000 → s.get_avg_path.isOk = true → s.visualize_graph.isOk = true) := by
  constructor
  · intro h
    simp [SmallWorld.visualize_graph, h]
  · intro h hap
    cases heq : s.get_avg_path with
    | error e => rw [heq] at hap; simp [Except.isOk, Except.toBool] at hap
    | ok v =>
      simp [SmallWorld.visualize_graph, h, heq, Except.isOk, Except.toBool]

/-- Witness for visualize_boundary at two concrete instances: n = 5001 errors
with no artifact; n = 5000 with a connected graph succeeds. -/
theorem visualize_boundary_witness :
    (SmallWorld.visualize_graph ⟨5001, 4, [0], true, "networkx.png", [tinyGraph]⟩ =
      Except.error VisualizeError.graphTooLarge) ∧
    ((SmallWorld.get_avg_path ⟨5000, 4, [0], true, "networkx.png", [tinyGraph]⟩).isOk = true ∧
      (SmallWorld.visualize_graph ⟨5000, 4, [0], true, "networkx.png", [tinyGraph]⟩).isOk = true) :=
  ⟨(visualize_boundary ⟨5001, 4, [0], true, "networkx.png", [tinyGraph]⟩).1 rfl,
   ⟨rfl, (visualize_boundary ⟨5000, 4, [0], true, "networkx.png", [tinyGraph]⟩).2 rfl rfl⟩⟩

/-- C6: the classification of lines 95-101 is total on beta: 0 is labelled
as the regular network, 1 as the random network, and every other value,
such as 0.37, as the small-world network. -/
theorem classify_total :
    classify 0 = "Regular network (Ring lattice)" ∧
    classify 1 = "Random network" ∧
    classify (37/100) = "Small-world network" ∧
    ∀ b : Rat, b ≠ 0 → b ≠ 1 → classify b = "Small-world network" := by
  refine ⟨by norm_num [classify], by norm_num [classify], by norm_num [classify], ?_⟩
  intro b h0 h1
  simp [classify, h0, h1]

/-- Witness for classify_total at b = 1/2. -/
theorem classify_total_witness :
    (1/2 : Rat) ≠ 0 ∧ (1/2 : Rat) ≠ 1 ∧ classify (1/2) = "Small-world network" :=
  ⟨by norm_num, by norm_num, classify_total.2.2.2 (1/2) (by norm_num) (by norm_num)⟩

/-- C7: a scalar beta argument is wrapped into a one-element list at lines
32-33, before the graphs of line 34 are built, so the stored beta sequence
and every per-beta output have length 1. -/
theorem scalar_beta_normalized (n k : Int) (b0 : Rat) (vis : Bool) (fp : String)
    (rng : Int → Int → Rat → List (Int × Int)) (s : SmallWorld)
    (h : SmallWorld.init n k (BetaArg.scalar b0) vis fp rng = Except.ok s) :
    s.beta = [b0] ∧ s.g.length = 1 ∧ s.get_clustering_coefficient.length = 1 := by
  by_cases hk : k ≥ n
  · simp [SmallWorld.init, normalizeBeta, buildGraphs, watts_strogatz_graph, hk] at h
  · have hk' : k < n := not_le.mp hk
    simp [SmallWorld.init, normalizeBeta, buildGraphs_ok_of_lt _ _ _ hk'] at h
    subst h
    simp [SmallWorld.get_clustering_coefficient]

/-- Witness for scalar_beta_normalized at n = 20, k = 4, b0 = 1/5. -/
theorem scalar_beta_normalized_witness :
    (SmallWorld.init 20 4 (BetaArg.scalar (1/5)) true "networkx.png" constRng =
      Except.ok ⟨20, 4, [1/5], true, "networkx.png", [⟨20, []⟩]⟩) ∧
    ([(1/5 : Rat)] = [(1/5 : Rat)] ∧
      ([(⟨20, []⟩ : NxGraph)]).length = 1 ∧
      (SmallWorld.get_clustering_coefficient
        ⟨20, 4, [1/5], true, "networkx.png", [⟨20, []⟩]⟩).length = 1) :=
  ⟨rfl, scalar_beta_normalized 20 4 (1/5) true "networkx.png" constRng
    ⟨20, 4, [1/5], true, "networkx.png", [⟨20, []⟩]⟩ rfl⟩

/-- C8: get_clustering_coefficient reads only self.n, self.k and self.beta;
two instances agreeing on those three fields return identical results, no
matter how their graphs (the only randomized state) or any other attribute
differ, and the computation traverses no graph. -/
theorem clustering_pure (s1 s2 : SmallWorld) (hn : s1.n = s2.n)
    (hk : s1.k = s2.k) (hb : s1.beta = s2.beta) :
    s1.get_clustering_coefficient = s2.get_clustering_coefficient := by
  simp [SmallWorld.get_clustering_coefficient, hn, hk, hb]

/-- Witness for clustering_pure: same n, k, beta but different graphs,
visualize flag and fig_path. -/
theorem clustering_pure_witness :
    SmallWorld.get_clustering_coefficient
      ⟨20, 4, [0, 1], true, "a.png", [⟨20, [(0, 1)]⟩, ⟨20, []⟩]⟩ =
    SmallWorld.get_clustering_coefficient
      ⟨20, 4, [0, 1], false, "b.png", [⟨20, []⟩, ⟨20, [(2, 3)]⟩]⟩ :=
  clustering_pure
    ⟨20, 4, [0, 1], true, "a.png", [⟨20, [(0, 1)]⟩, ⟨20, []⟩]⟩
    ⟨20, 4, [0, 1], false, "b.png", [⟨20, []⟩, ⟨20, [(2, 3)]⟩]⟩
    rfl rfl rfl

set_option maxRecDepth 8000 in
/-- C10 counterexample: visualize_graph does not always save the idx-th image.
The graph discSmall is a realizable watts_strogatz_graph(20, 2, 1/2) outcome
(two disjoint 10-cycles); on the state SmallWorld(20, 2, 0.5) carrying it,
visualize_graph passes the size check but the line-48 average-path call raises
NetworkXError and no graph0.png is saved. -/
theorem visualize_not_always_saves :
    SmallWorld.visualize_graph ⟨20, 2, [1/2], true, "networkx.png", [discSmall]⟩ =
      Except.error (VisualizeError.nx NxError.notConnected) := by
  rfl

/-- C10 amended: fig_path is stored by the constructor but never read, so two
instances differing only in fig_path produce identical visualize_graph
outcomes; whenever visualization succeeds (n <= 5000 and every average-path
computation of line 48 succeeds) the idx-th image is saved to "graph{idx}.png"
(line 55), while a disconnected graph makes line 48 raise and nothing is
saved. -/
theorem fig_path_no_effect (n k : Int) (betas : List Rat) (vis : Bool)
    (fp1 fp2 : String) (g : List NxGraph) :
    SmallWorld.visualize_graph ⟨n, k, betas, vis, fp1, g⟩ =
      SmallWorld.visualize_graph ⟨n, k, betas, vis, fp2, g⟩ ∧
    (n ≤ 5000 → (avgPathList g).isOk = true →
      SmallWorld.visualize_graph ⟨n, k, betas, vis, fp1, g⟩ =
        Except.ok ((List.range betas.length).map
          (fun idx => "graph" ++ toString idx ++ ".png"))) := by
  constructor
  · rfl
  · intro h hap
    cases heq : avgPathList g with
    | error e => rw [heq] at hap; simp [Except.isOk, Except.toBool] at hap
    | ok v =>
      simp [SmallWorld.visualize_graph, SmallWorld.get_avg_path, not_lt.mpr h, heq]

/-- Witness for fig_path_no_effect at a concrete instance with n = 20 and
connected graphs. -/
theorem fig_path_no_effect_witness :
    (SmallWorld.visualize_graph ⟨20, 4, [0, 1], true, "a.png", [tinyGraph, tinyGraph]⟩ =
      SmallWorld.visualize_graph ⟨20, 4, [0, 1], true, "b.png", [tinyGraph, tinyGraph]⟩) ∧
    ((20 : Int) ≤ 5000 ∧ (avgPathList [tinyGraph, tinyGraph]).isOk = true ∧
      SmallWorld.visualize_graph ⟨20, 4, [0, 1], true, "a.png", [tinyGraph, tinyGraph]⟩ =
        Except.ok ["graph0.png", "graph1.png"]) :=
  ⟨(fig_path_no_effect 20 4 [0, 1] true "a.png" "b.png" [tinyGraph, tinyGraph]).1,
   ⟨by norm_num, rfl,
    ((fig_path_no_effect 20 4 [0, 1] true "a.png" "b.png" [tinyGraph, tinyGraph]).2
      (by norm_num) rfl).trans (by rfl)⟩⟩
